import Mathlib

/-!
Verification of the demon profiler (`constraint_solver/demon_profiler.cc`).

The source file implements `DemonMonitor`, an in-memory profiler for a
constraint-propagation engine.  It records, per constraint and per demon
(propagation rule), timestamped run intervals, attributes failures to the
active entity, and aggregates mean / median / standard deviation statistics.

The embedding below mirrors the C++ class field by field:

* `Constraint*` and `Demon*` pointer identities become `Nat` handles.
* The three hash maps (`constraint_map_`, `demon_map_`,
  `demons_per_constraint_`) become association lists over `Nat` keys.
* `DemonRuns` protocol-buffer objects are heap allocated in the source and
  aliased by `demon_map_`, by `demons_per_constraint_` and by the owning
  `ConstraintRuns`; the embedding keeps an explicit heap
  (`runs_heap` indexed by `Ptr`) so that every alias is a heap address and
  mutation through one alias is visible through the others, exactly as in
  the source.
* `CHECK` / `CHECK_EQ` / `CHECK_NOTNULL` macro failures abort the process;
  they are modelled as `Except.error RunError.checkFailed`.  Dereferencing a
  null record pointer (which the source does when `operator[]` on a hash map
  default-inserts a `NULL` value that is then used) is undefined behaviour,
  modelled as the distinct `Except.error RunError.nullDeref`.
* `int64` timestamps become `Int` (no claim involves 64-bit overflow);
  `double` statistics become `Rat` (all the statistics except the final
  square root are exact rational operations on exactly representable
  inputs), with the standard deviation expressed as the real square root of
  the rational variance.
-/

abbrev ConstraintId := Nat

abbrev DemonId := Nat

abbrev Ptr := Nat

/-- Association-list lookup, the embedding of `hash_map::find` /
reading `operator[]`. -/
def alookup {β : Type} : List (Nat × β) → Nat → Option β
  | [], _ => none
  | kv :: rest, a => if kv.1 = a then some kv.2 else alookup rest a

/-- Association-list insert-or-overwrite, the embedding of
`hash_map::operator[]= `. -/
def aupdate {β : Type} : List (Nat × β) → Nat → β → List (Nat × β)
  | [], a, b => [(a, b)]
  | kv :: rest, a, b => if kv.1 = a then (a, b) :: rest else kv :: aupdate rest a b

/-- Embedding of the `DemonRuns` protocol buffer: a demon identity, the
parallel lists of start and end timestamps (`add_start_time` /
`add_end_time`), and the failure counter. -/
structure DemonRuns where
  demon_id : DemonId
  start_time : List Int
  end_time : List Int
  failures : Int
deriving DecidableEq, Repr

/-- Embedding of the `ConstraintRuns` protocol buffer: a constraint
identity, the initial-propagation start and end timestamps, the failure
flag, and the repeated `demons` field.  The repeated sub-messages are
represented by their heap addresses because the source aliases them from
`demon_map_` and `demons_per_constraint_`.  Unset proto2 numeric fields
read as `0`, so fresh records carry `0` end time and `0` failures. -/
structure ConstraintRuns where
  constraint_id : ConstraintId
  initial_propagation_start_time : Int
  initial_propagation_end_time : Int
  failures : Int
  demons : List Ptr
deriving DecidableEq, Repr

/-- Outcome of running one monitor operation: `checkFailed` models a
`CHECK` / `CHECK_EQ` / `CHECK_NOTNULL` abort, `nullDeref` models the
undefined behaviour of dereferencing a `NULL` record pointer that
`hash_map::operator[]` default-inserted for an absent key. -/
inductive RunError where
  | checkFailed
  | nullDeref
deriving DecidableEq, Repr

/-- Embedding of the `DemonMonitor` state: the two active-entity latches
and the three hash maps, plus the explicit heap of `DemonRuns` records and
its allocation counter. -/
structure DemonMonitor where
  active_constraint : Option ConstraintId
  active_demon : Option DemonId
  constraint_map : List (ConstraintId × ConstraintRuns)
  demon_map : List (DemonId × Ptr)
  demons_per_constraint : List (ConstraintId × List Ptr)
  runs_heap : List (Ptr × DemonRuns)
  next_ptr : Ptr
deriving DecidableEq, Repr

/-- Embedding of the `DemonMonitor` constructor: null active pointers and
empty maps. -/
def initMonitor : DemonMonitor := ⟨none, none, [], [], [], [], 0⟩

/-- Embedding of `DemonMonitor::StartInitialPropagation`: checks that no
constraint and no demon is active, allocates a fresh `ConstraintRuns` with
the current time as start (end time and failures at their proto defaults),
marks the constraint active and stores the record (overwriting any previous
record for the same constraint). -/
def startInitialPropagation (m : DemonMonitor) (constraint : ConstraintId) (now : Int) :
    Except RunError DemonMonitor :=
  if m.active_constraint ≠ none then Except.error RunError.checkFailed
  else if m.active_demon ≠ none then Except.error RunError.checkFailed
  else
    Except.ok ⟨some constraint, m.active_demon,
      aupdate m.constraint_map constraint ⟨constraint, now, 0, 0, []⟩,
      m.demon_map, m.demons_per_constraint, m.runs_heap, m.next_ptr⟩

/-- Embedding of `DemonMonitor::EndInitialPropagation`: checks that the
argument is the active constraint and no demon is active, records the end
time, sets the failure flag to `0` and clears the active constraint. -/
def endInitialPropagation (m : DemonMonitor) (constraint : ConstraintId) (now : Int) :
    Except RunError DemonMonitor :=
  if m.active_constraint = none then Except.error RunError.checkFailed
  else if m.active_demon ≠ none then Except.error RunError.checkFailed
  else if m.active_constraint ≠ some constraint then Except.error RunError.checkFailed
  else
    match alookup m.constraint_map constraint with
    | none => Except.error RunError.checkFailed
    | some ct =>
      Except.ok ⟨none, m.active_demon,
        aupdate m.constraint_map constraint
          ⟨ct.constraint_id, ct.initial_propagation_start_time, now, 0, ct.demons⟩,
        m.demon_map, m.demons_per_constraint, m.runs_heap, m.next_ptr⟩

/-- Embedding of `DemonMonitor::RegisterDemon`: a no-op when the demon is
already in `demon_map_`; otherwise requires an active constraint and no
active demon, allocates a fresh `DemonRuns` with zero failures, appends it
to the `demons` field of the active constraint record and to
`demons_per_constraint_`, and binds the demon to it in `demon_map_`. -/
def registerDemon (m : DemonMonitor) (demon : DemonId) : Except RunError DemonMonitor :=
  if (alookup m.demon_map demon).isSome = true then Except.ok m
  else
    match m.active_constraint with
    | none => Except.error RunError.checkFailed
    | some ac =>
      if m.active_demon ≠ none then Except.error RunError.checkFailed
      else
        match alookup m.constraint_map ac with
        | none => Except.error RunError.nullDeref
        | some ct =>
          Except.ok ⟨m.active_constraint, m.active_demon,
            aupdate m.constraint_map ac
              ⟨ct.constraint_id, ct.initial_propagation_start_time,
                ct.initial_propagation_end_time, ct.failures, ct.demons ++ [m.next_ptr]⟩,
            aupdate m.demon_map demon m.next_ptr,
            aupdate m.demons_per_constraint ac
              (((alookup m.demons_per_constraint ac).getD []) ++ [m.next_ptr]),
            aupdate m.runs_heap m.next_ptr ⟨demon, [], [], 0⟩,
            m.next_ptr + 1⟩

/-- Embedding of `DemonMonitor::StartDemonRun`: checks that no demon is
active, then reads `demon_map_[demon]` and appends the current time to the
start-time list of the record.  For an unregistered demon `operator[]`
default-inserts a `NULL` pointer which is then dereferenced, so that case
is the `nullDeref` outcome, not a detected `CHECK` failure. -/
def startDemonRun (m : DemonMonitor) (demon : DemonId) (now : Int) :
    Except RunError DemonMonitor :=
  if m.active_demon ≠ none then Except.error RunError.checkFailed
  else
    match alookup m.demon_map demon with
    | none => Except.error RunError.nullDeref
    | some p =>
      match alookup m.runs_heap p with
      | none => Except.error RunError.nullDeref
      | some dr =>
        Except.ok ⟨m.active_constraint, some demon, m.constraint_map, m.demon_map,
          m.demons_per_constraint,
          aupdate m.runs_heap p ⟨dr.demon_id, dr.start_time ++ [now], dr.end_time, dr.failures⟩,
          m.next_ptr⟩

/-- Embedding of `DemonMonitor::EndDemonRun`: checks that the argument is
the active demon, looks up its record (`CHECK_NOTNULL`), appends the end
time and clears the active demon. -/
def endDemonRun (m : DemonMonitor) (demon : DemonId) (now : Int) :
    Except RunError DemonMonitor :=
  if m.active_demon ≠ some demon then Except.error RunError.checkFailed
  else
    match alookup m.demon_map demon with
    | none => Except.error RunError.checkFailed
    | some p =>
      match alookup m.runs_heap p with
      | none => Except.error RunError.nullDeref
      | some dr =>
        Except.ok ⟨m.active_constraint, none, m.constraint_map, m.demon_map,
          m.demons_per_constraint,
          aupdate m.runs_heap p ⟨dr.demon_id, dr.start_time, dr.end_time ++ [now], dr.failures⟩,
          m.next_ptr⟩

/-- Embedding of `DemonMonitor::RaiseFailure`.  The constraint-active
branch first executes `CHECK_NOTNULL(active_demon_)` — it aborts unless a
demon is simultaneously active — then closes the constraint phase as
failed (end time set to now, failure flag `1`, active constraint cleared)
while leaving the demon record and the active-demon latch untouched.  The
demon-only branch appends an end time to the active demon record,
increments its failure counter and clears the active demon.  With neither
entity active the call is a no-op. -/
def raiseFailure (m : DemonMonitor) (now : Int) : Except RunError DemonMonitor :=
  match m.active_constraint with
  | some ac =>
    if m.active_demon = none then Except.error RunError.checkFailed
    else
      match alookup m.constraint_map ac with
      | none => Except.error RunError.checkFailed
      | some ct =>
        Except.ok ⟨none, m.active_demon,
          aupdate m.constraint_map ac
            ⟨ct.constraint_id, ct.initial_propagation_start_time, now, 1, ct.demons⟩,
          m.demon_map, m.demons_per_constraint, m.runs_heap, m.next_ptr⟩
  | none =>
    match m.active_demon with
    | none => Except.ok m
    | some ad =>
      match alookup m.demon_map ad with
      | none => Except.error RunError.nullDeref
      | some p =>
        match alookup m.runs_heap p with
        | none => Except.error RunError.nullDeref
        | some dr =>
          Except.ok ⟨none, none, m.constraint_map, m.demon_map, m.demons_per_constraint,
            aupdate m.runs_heap p
              ⟨dr.demon_id, dr.start_time, dr.end_time ++ [now], dr.failures + 1⟩,
            m.next_ptr⟩

/-- Embedding of `DemonMonitor::AddFakeRun`: appends a complete
(start, end) run to a registered demon record, incrementing the failure
counter when the run is marked as a failure. -/
def addFakeRun (m : DemonMonitor) (demon : DemonId) (startT endT : Int) (isFail : Bool) :
    Except RunError DemonMonitor :=
  match alookup m.demon_map demon with
  | none => Except.error RunError.checkFailed
  | some p =>
    match alookup m.runs_heap p with
    | none => Except.error RunError.nullDeref
    | some dr =>
      Except.ok ⟨m.active_constraint, m.active_demon, m.constraint_map, m.demon_map,
        m.demons_per_constraint,
        aupdate m.runs_heap p ⟨dr.demon_id, dr.start_time ++ [startT], dr.end_time ++ [endT],
          if isFail then dr.failures + 1 else dr.failures⟩,
        m.next_ptr⟩

/-- Embedding of `DemonMonitor::RestartSearch`: deletes every record and
clears the three maps.  The active-entity latches are not touched by the
source. -/
def restartSearch (m : DemonMonitor) : DemonMonitor :=
  ⟨m.active_constraint, m.active_demon, [], [], [], [], m.next_ptr⟩

/-- Per-run durations of a demon record, `end_time(i) - start_time(i)`. -/
def demonDurations (dr : DemonRuns) : List Int :=
  (dr.end_time.zip dr.start_time).map (fun pr => pr.1 - pr.2)

/-- Per-run durations as rationals, the embedding of the `runtimes` vector
of doubles built by `ExportInformation(DemonRuns*)`. -/
def runtimesQ (dr : DemonRuns) : List Rat :=
  (demonDurations dr).map Int.cast

/-- The `runtimes` vector after the in-place `sort`. -/
def sortedRuntimes (dr : DemonRuns) : List Rat :=
  List.insertionSort (fun a b => a ≤ b) (runtimesQ dr)

/-- Mean runtime as computed by the source for a nonempty run list:
`(1.0L * total) / runs`. -/
def codeMean (dr : DemonRuns) : Rat :=
  ((demonDurations dr).sum : Rat) / (dr.start_time.length : Rat)

/-- Median as computed by the source for a nonempty run list: with
`pivot = runs / 2`, a singleton yields its only element, an odd length
yields `runtimes[pivot]`, an even length the average of
`runtimes[pivot - 1]` and `runtimes[pivot]`. -/
def codeMedian (dr : DemonRuns) : Rat :=
  if dr.start_time.length = 1 then (sortedRuntimes dr).getD 0 0
  else if dr.start_time.length % 2 = 1 then
    (sortedRuntimes dr).getD (dr.start_time.length / 2) 0
  else
    ((sortedRuntimes dr).getD (dr.start_time.length / 2 - 1) 0 +
      (sortedRuntimes dr).getD (dr.start_time.length / 2) 0) / 2

/-- Population variance as computed by the source for a nonempty run list:
`sum((runtimes[i] - mean)^2) / runs`.  The source reports its square root;
the rational variance is the exact part of that computation. -/
def codeVariance (dr : DemonRuns) : Rat :=
  ((sortedRuntimes dr).map (fun r => (r - codeMean dr) ^ 2)).sum /
    (dr.start_time.length : Rat)

/-- Result record of `ExportInformation(DemonRuns*, ...)`, one field per
output parameter.  The standard deviation is reported separately as
`demonStddev` because only its square is rational. -/
structure DemonSummary where
  demon_invocations : Int
  fails : Int
  total_demon_runtime : Int
  mean_demon_runtime : Rat
  median_demon_runtime : Rat
  variance_demon_runtime : Rat
deriving DecidableEq, Repr

/-- Standard deviation reported by the source:
`sqrt(total_deviation / runs)`. -/
noncomputable def demonStddev (s : DemonSummary) : Real :=
  Real.sqrt ((s.variance_demon_runtime : Real))

/-- Embedding of `DemonMonitor::ExportInformation(DemonRuns*, ...)`:
checks that the start and end lists have equal length, then returns the
invocation count, failure count, total runtime, and — only when at least
one run exists — the mean, median and variance; with zero runs those
statistics are left at `0` and no division is performed. -/
def exportDemonInformation (dr : DemonRuns) : Except RunError DemonSummary :=
  if dr.start_time.length ≠ dr.end_time.length then Except.error RunError.checkFailed
  else if dr.start_time.length = 0 then
    Except.ok ⟨0, dr.failures, (demonDurations dr).sum, 0, 0, 0⟩
  else
    Except.ok ⟨(dr.start_time.length : Int), dr.failures, (demonDurations dr).sum,
      codeMean dr, codeMedian dr, codeVariance dr⟩

/-- Result record of `ExportInformation(Constraint*, ...)`, one field per
output parameter. -/
structure ConstraintSummary where
  fails : Int
  initial_propagation_runtime : Int
  demon_invocations : Int
  total_demon_runtime : Int
  demons : Int
deriving DecidableEq, Repr

/-- The accumulation loop of `ExportInformation(Constraint*, ...)` over the
`demons` field of a constraint record: for each demon record it checks the
start/end length equality, then accumulates failures, invocation counts
and total runtimes. -/
def constraintLoop (m : DemonMonitor) : List Ptr → Except RunError (Int × Int × Int)
  | [] => Except.ok (0, 0, 0)
  | p :: rest =>
    match alookup m.runs_heap p with
    | none => Except.error RunError.nullDeref
    | some dr =>
      if dr.start_time.length ≠ dr.end_time.length then Except.error RunError.checkFailed
      else
        match constraintLoop m rest with
        | Except.error e => Except.error e
        | Except.ok fir =>
          Except.ok (dr.failures + fir.1, (dr.start_time.length : Int) + fir.2.1,
            (demonDurations dr).sum + fir.2.2)

/-- Embedding of `DemonMonitor::ExportInformation(Constraint*, ...)`:
looks up the constraint record (`CHECK_NOTNULL` fails for an unknown
constraint), checks that the `demons` field and `demons_per_constraint_`
agree in size, and sums failures, invocations and runtimes over the owned
demon records, starting from the constraint failure flag. -/
def exportConstraintInformation (m : DemonMonitor) (constraint : ConstraintId) :
    Except RunError ConstraintSummary :=
  match alookup m.constraint_map constraint with
  | none => Except.error RunError.checkFailed
  | some ct =>
    if ct.demons.length ≠ ((alookup m.demons_per_constraint constraint).getD []).length then
      Except.error RunError.checkFailed
    else
      match constraintLoop m ct.demons with
      | Except.error e => Except.error e
      | Except.ok fir =>
        Except.ok ⟨ct.failures + fir.1,
          ct.initial_propagation_end_time - ct.initial_propagation_start_time,
          fir.2.1, fir.2.2, (ct.demons.length : Int)⟩

/-- The per-constraint inner loop of `PrintOverview`: one `DemonSummary`
line for each demon record listed in `demons_per_constraint_`. -/
def demonLines (m : DemonMonitor) : List Ptr → Except RunError (List DemonSummary)
  | [] => Except.ok []
  | p :: rest =>
    match alookup m.runs_heap p with
    | none => Except.error RunError.nullDeref
    | some dr =>
      match exportDemonInformation dr with
      | Except.error e => Except.error e
      | Except.ok s =>
        match demonLines m rest with
        | Except.error e => Except.error e
        | Except.ok restL => Except.ok (s :: restL)

/-- The outer loop of `PrintOverview` over `constraint_map_`. -/
def overviewLoop (m : DemonMonitor) :
    List (ConstraintId × ConstraintRuns) → Except RunError (List (ConstraintSummary × List DemonSummary))
  | [] => Except.ok []
  | (c, _) :: rest =>
    match exportConstraintInformation m c with
    | Except.error e => Except.error e
    | Except.ok cs =>
      match demonLines m ((alookup m.demons_per_constraint c).getD []) with
      | Except.error e => Except.error e
      | Except.ok ds =>
        match overviewLoop m rest with
        | Except.error e => Except.error e
        | Except.ok restL => Except.ok ((cs, ds) :: restL)

/-- Embedding of `DemonMonitor::PrintOverview`, abstracting the text
formatting: the report is the list of constraint summaries, each paired
with the summaries of its demons in registration order. -/
def printOverview (m : DemonMonitor) :
    Except RunError (List (ConstraintSummary × List DemonSummary)) :=
  overviewLoop m m.constraint_map

/-- Modelled from the spec: the statistics section describes the median as
sorting the durations ascending and taking the middle element for an odd
count or the average of the two middle elements for an even count.  This
definition follows those words directly and is compared with the
`codeMedian` computed by the source. -/
def medianSpec (l : List Rat) : Rat :=
  if l.length % 2 = 1 then
    (List.insertionSort (fun a b => a ≤ b) l).getD (l.length / 2) 0
  else
    ((List.insertionSort (fun a b => a ≤ b) l).getD (l.length / 2 - 1) 0 +
      (List.insertionSort (fun a b => a ≤ b) l).getD (l.length / 2) 0) / 2

/-- Lookup after an overwrite at the same key returns the new value. -/
theorem alookup_aupdate_self {β : Type} (m : List (Nat × β)) (a : Nat) (b : β) :
    alookup (aupdate m a b) a = some b := by
  induction m with
  | nil => simp [aupdate, alookup]
  | cons kv rest ih =>
    by_cases h : kv.1 = a
    · simp [aupdate, alookup, h]
    · simp [aupdate, alookup, h, ih]

/-- Lookup at a different key is unaffected by an overwrite. -/
theorem alookup_aupdate_ne {β : Type} (m : List (Nat × β)) (a q : Nat) (b : β)
    (h : q ≠ a) : alookup (aupdate m a b) q = alookup m q := by
  have hne : ¬ a = q := fun hh => h hh.symm
  induction m with
  | nil => simp [aupdate, alookup, hne]
  | cons kv rest ih =>
    by_cases hk : kv.1 = a
    · subst hk
      simp [aupdate, alookup, hne]
    · simp only [aupdate, if_neg hk]
      by_cases hq : kv.1 = q
      · simp [alookup, hq]
      · simp [alookup, hq, ih]

/-- Claim C1: the claim states that `SignalFailure` in a state with a
constraint active and no rule active closes the constraint phase as failed
without aborting.  The source instead executes `CHECK_NOTNULL(active_demon_)`
in that branch, so the call aborts in exactly that state: starting a
constraint phase on a fresh monitor and then raising a failure hits the
`CHECK` abort rather than recording the failure. -/
theorem raiseFailure_constraint_active_no_demon_check_fails :
    (startInitialPropagation initMonitor 0 0).bind (fun m1 => raiseFailure m1 5) =
      Except.error RunError.checkFailed := by rfl

/-- Claim C2 counterexample: the claim states that `BeginRuleRun` while a
constraint is active fails.  The source checks only `active_demon_`, so on
a fresh monitor the sequence begin-constraint, register-demon,
begin-rule-run succeeds and leaves both the constraint and the rule
active simultaneously. -/
theorem startDemonRun_succeeds_while_constraint_active :
    ((startInitialPropagation initMonitor 0 0).bind (fun m1 =>
      (registerDemon m1 5).bind (fun m2 => startDemonRun m2 5 1))).map
        (fun m3 => (m3.active_constraint, m3.active_demon)) =
      Except.ok (some 0, some 5) := by rfl

/-- Claim C2 (amended): `BeginConstraintPropagation` fails whenever a
constraint or a rule is active, and `BeginRuleRun` fails whenever a rule
is active; only the rule-while-constraint direction is unchecked.  Each
conjunct carries only its own activity hypothesis, so the first covers in
particular the state with a constraint active and no rule active. -/
theorem begin_operations_exclusion_amended (m : DemonMonitor) (c : ConstraintId)
    (d : DemonId) (t1 t2 : Int) :
    (m.active_constraint ≠ none ∨ m.active_demon ≠ none →
      startInitialPropagation m c t1 = Except.error RunError.checkFailed) ∧
    (m.active_demon ≠ none →
      startDemonRun m d t2 = Except.error RunError.checkFailed) := by
  constructor
  · intro h1
    rw [startInitialPropagation]
    rcases h1 with h | h
    · rw [if_pos h]
    · by_cases hc : m.active_constraint ≠ none
      · rw [if_pos hc]
      · rw [if_neg hc, if_pos h]
  · intro h2
    rw [startDemonRun, if_pos h2]

/-- Concrete monitor state with both a constraint and a demon active, as
reached by the sequence in `startDemonRun_succeeds_while_constraint_active`. -/
def mBoth : DemonMonitor :=
  ⟨some 0, some 5, [(0, ⟨0, 0, 0, 0, [0]⟩)], [(5, 0)], [(0, [0])], [(0, ⟨5, [1], [], 0⟩)], 1⟩

/-- Concrete monitor state with a constraint active and no demon active,
as reached by `StartInitialPropagation` on a fresh monitor. -/
def mConstraintOnly : DemonMonitor :=
  ⟨some 0, none, [(0, ⟨0, 0, 0, 0, []⟩)], [], [], [], 0⟩

/-- Witness for the amended claim C2: `BeginConstraintPropagation` is
rejected both in the constraint-only-active state and in the both-active
state, and `BeginRuleRun` is rejected in the rule-active state. -/
theorem begin_operations_exclusion_amended_witness :
    mConstraintOnly.active_constraint ≠ none ∧
    mConstraintOnly.active_demon = none ∧
    startInitialPropagation mConstraintOnly 1 2 = Except.error RunError.checkFailed ∧
    mBoth.active_demon ≠ none ∧
    startInitialPropagation mBoth 1 2 = Except.error RunError.checkFailed ∧
    startDemonRun mBoth 6 3 = Except.error RunError.checkFailed := by
  refine ⟨by decide, rfl, ?_, by decide, ?_, ?_⟩
  · exact (begin_operations_exclusion_amended mConstraintOnly 1 6 2 3).1 (Or.inl (by decide))
  · exact (begin_operations_exclusion_amended mBoth 1 6 2 3).1 (Or.inr (by decide))
  · exact (begin_operations_exclusion_amended mBoth 1 6 2 3).2 (by decide)

/-- Claim C3: the claim states that `BeginRuleRun` on an unregistered rule
fails as a detected contract violation without dereferencing an absent
record.  The source reads `demon_map_[demon]`, which default-inserts a
`NULL` record pointer for the unknown demon, and then dereferences it:
undefined behaviour, not a `CHECK` failure.  On a fresh monitor with no
registration, the call reaches that null dereference. -/
theorem startDemonRun_unregistered_null_deref :
    startDemonRun initMonitor 7 0 = Except.error RunError.nullDeref := by rfl

/-- Claim C4: with a rule active, no constraint active, and the rule bound
to a live record, `SignalFailure` appends the current time as an end
timestamp to that record, increments exactly that record failure counter,
clears the active rule, and leaves every other field and every other heap
record unchanged. -/
theorem raiseFailure_demon_active_closes_run (m : DemonMonitor) (d : DemonId) (p : Ptr)
    (dr : DemonRuns) (now : Int)
    (hc : m.active_constraint = none)
    (hd : m.active_demon = some d)
    (hm : alookup m.demon_map d = some p)
    (hh : alookup m.runs_heap p = some dr) :
    raiseFailure m now =
      Except.ok ⟨none, none, m.constraint_map, m.demon_map, m.demons_per_constraint,
        aupdate m.runs_heap p ⟨dr.demon_id, dr.start_time, dr.end_time ++ [now], dr.failures + 1⟩,
        m.next_ptr⟩ ∧
    (∀ q : Ptr, q ≠ p →
      alookup (aupdate m.runs_heap p
        ⟨dr.demon_id, dr.start_time, dr.end_time ++ [now], dr.failures + 1⟩) q =
      alookup m.runs_heap q) := by
  constructor
  · obtain ⟨a1, a2, a3, a4, a5, a6, a7⟩ := m
    simp only at hc hd hm hh
    subst hc
    subst hd
    simp [raiseFailure, hm, hh]
  · intro q hq
    exact alookup_aupdate_ne _ _ _ _ hq

/-- Concrete state for the claim C4 witness: demon 3 is active with one
open run started at time 2, no constraint active. -/
def mC4 : DemonMonitor := ⟨none, some 3, [], [(3, 0)], [], [(0, ⟨3, [2], [], 0⟩)], 1⟩

/-- Witness for claim C4: raising a failure at time 9 closes the open run
of demon 3 with end time 9 and failure count 1, and the lookup of an
unrelated heap address is unchanged. -/
theorem raiseFailure_demon_active_closes_run_witness :
    mC4.active_constraint = none ∧ mC4.active_demon = some 3 ∧
    alookup mC4.demon_map 3 = some 0 ∧
    alookup mC4.runs_heap 0 = some ⟨3, [2], [], 0⟩ ∧
    raiseFailure mC4 9 =
      Except.ok ⟨none, none, [], [(3, 0)], [], [(0, ⟨3, [2], [9], 1⟩)], 1⟩ ∧
    alookup (aupdate mC4.runs_heap 0 ⟨3, [2], [9], 1⟩) 5 = alookup mC4.runs_heap 5 := by
  refine ⟨rfl, rfl, rfl, rfl, ?_, ?_⟩
  · exact (raiseFailure_demon_active_closes_run mC4 3 0 ⟨3, [2], [], 0⟩ 9 rfl rfl rfl rfl).1
  · exact (raiseFailure_demon_active_closes_run mC4 3 0 ⟨3, [2], [], 0⟩ 9 rfl rfl rfl rfl).2 5
      (by decide)

/-- Claim C8: registering a demon that is already present in `demon_map_`
returns the state unchanged: no second record is created and no duplicate
entry is appended to the owning constraint rule list. -/
theorem registerDemon_idempotent (m : DemonMonitor) (d : DemonId)
    (h : (alookup m.demon_map d).isSome = true) :
    registerDemon m d = Except.ok m := by
  rw [registerDemon, if_pos h]

/-- Concrete state for the claim C8 witness: demon 5 already registered to
constraint 0. -/
def mC8 : DemonMonitor :=
  ⟨none, none, [(0, ⟨0, 0, 4, 0, [0]⟩)], [(5, 0)], [(0, [0])], [(0, ⟨5, [], [], 0⟩)], 1⟩

/-- Witness for claim C8 at a concrete registered state. -/
theorem registerDemon_idempotent_witness :
    (alookup mC8.demon_map 5).isSome = true ∧
    registerDemon mC8 5 = Except.ok mC8 :=
  ⟨rfl, registerDemon_idempotent mC8 5 rfl⟩

/-- Claim C10: with both a constraint and a rule active, `SignalFailure`
closes only the constraint record (end time set to now, failure flag `1`),
clears the active constraint, and leaves the demon map, the rule records
heap and the active-rule latch untouched, so the active rule keeps its
open run and stays active. -/
theorem raiseFailure_both_active_frame (m : DemonMonitor) (c : ConstraintId) (d : DemonId)
    (ct : ConstraintRuns) (now : Int)
    (hc : m.active_constraint = some c)
    (hd : m.active_demon = some d)
    (hm : alookup m.constraint_map c = some ct) :
    raiseFailure m now =
      Except.ok ⟨none, some d,
        aupdate m.constraint_map c
          ⟨ct.constraint_id, ct.initial_propagation_start_time, now, 1, ct.demons⟩,
        m.demon_map, m.demons_per_constraint, m.runs_heap, m.next_ptr⟩ := by
  obtain ⟨a1, a2, a3, a4, a5, a6, a7⟩ := m
  simp only at hc hd hm
  subst hc
  subst hd
  simp [raiseFailure, hm]

/-- Concrete state for the claim C10 witness: constraint 2 is mid initial
propagation (started at time 4) and demon 3 is active with an open run
started at time 5. -/
def mC10 : DemonMonitor :=
  ⟨some 2, some 3, [(2, ⟨2, 4, 0, 0, [0]⟩)], [(3, 0)], [(2, [0])], [(0, ⟨3, [5], [], 0⟩)], 1⟩

/-- Witness for claim C10: the constraint record is closed as failed at
time 8 while the demon record keeps its open run and demon 3 stays
active. -/
theorem raiseFailure_both_active_frame_witness :
    mC10.active_constraint = some 2 ∧ mC10.active_demon = some 3 ∧
    alookup mC10.constraint_map 2 = some ⟨2, 4, 0, 0, [0]⟩ ∧
    raiseFailure mC10 8 =
      Except.ok ⟨none, some 3, [(2, ⟨2, 4, 8, 1, [0]⟩)], [(3, 0)], [(2, [0])],
        [(0, ⟨3, [5], [], 0⟩)], 1⟩ :=
  ⟨rfl, rfl, rfl, raiseFailure_both_active_frame mC10 2 3 ⟨2, 4, 0, 0, [0]⟩ 8 rfl rfl rfl⟩

/-- Claim C5: for a rule record with zero runs the export returns zero
invocations, zero total runtime and zero mean, median and variance — the
guarded branch performs no division — and the reported standard deviation
is likewise zero. -/
theorem exportDemonInformation_zero_runs (dr : DemonRuns)
    (h1 : dr.start_time = []) (h2 : dr.end_time = []) :
    exportDemonInformation dr = Except.ok ⟨0, dr.failures, 0, 0, 0, 0⟩ ∧
    demonStddev ⟨0, dr.failures, 0, 0, 0, 0⟩ = 0 := by
  constructor
  · rw [exportDemonInformation]
    simp [h1, h2, demonDurations]
  · simp [demonStddev]

/-- Concrete record for the claim C5 witness: no runs, three failures. -/
def drC5 : DemonRuns := ⟨0, [], [], 3⟩

/-- Witness for claim C5 at a concrete empty record. -/
theorem exportDemonInformation_zero_runs_witness :
    drC5.start_time = [] ∧ drC5.end_time = [] ∧
    exportDemonInformation drC5 = Except.ok ⟨0, 3, 0, 0, 0, 0⟩ ∧
    demonStddev ⟨0, 3, 0, 0, 0, 0⟩ = 0 :=
  ⟨rfl, rfl, (exportDemonInformation_zero_runs drC5 rfl rfl).1,
    (exportDemonInformation_zero_runs drC5 rfl rfl).2⟩

/-- Concrete populated monitor for claim C9: constraint 0 with one demon
and one completed run, no phase active. -/
def mC9 : DemonMonitor :=
  ⟨none, none, [(0, ⟨0, 0, 4, 0, [0]⟩)], [(9, 0)], [(0, [0])], [(0, ⟨9, [1], [2], 0⟩)], 1⟩

/-- Claim C9 counterexample: the claim states that after `Reset` every
query returns empty or all-zero results rather than a fatal error.  After
`RestartSearch` the constraint record is gone, so
`ExportInformation(Constraint*, ...)` hits `CHECK_NOTNULL(ct_run)` on the
default-inserted null pointer: a fatal `CHECK` failure, not an all-zero
result. -/
theorem query_after_restart_check_fails :
    mC9.active_constraint = none ∧ mC9.active_demon = none ∧
    exportConstraintInformation (restartSearch mC9) 0 = Except.error RunError.checkFailed :=
  ⟨rfl, rfl, rfl⟩

/-- Claim C9 (amended): for a state with no phase active, `RestartSearch`
discards every constraint and rule record (all maps and the record heap
become empty) and the overview report of the cleared state is empty, but
`ExportInformation(Constraint*, ...)` for any constraint afterwards fails
a `CHECK` because the record no longer exists. -/
theorem restartSearch_clears_amended (m : DemonMonitor) (c : ConstraintId)
    (_h1 : m.active_constraint = none) (_h2 : m.active_demon = none) :
    (restartSearch m).constraint_map = [] ∧
    (restartSearch m).demon_map = [] ∧
    (restartSearch m).demons_per_constraint = [] ∧
    (restartSearch m).runs_heap = [] ∧
    printOverview (restartSearch m) = Except.ok [] ∧
    exportConstraintInformation (restartSearch m) c = Except.error RunError.checkFailed :=
  ⟨rfl, rfl, rfl, rfl, rfl, rfl⟩

/-- Witness for the amended claim C9 at the concrete populated monitor. -/
theorem restartSearch_clears_amended_witness :
    mC9.active_constraint = none ∧ mC9.active_demon = none ∧
    ((restartSearch mC9).constraint_map = [] ∧
      (restartSearch mC9).demon_map = [] ∧
      (restartSearch mC9).demons_per_constraint = [] ∧
      (restartSearch mC9).runs_heap = [] ∧
      printOverview (restartSearch mC9) = Except.ok [] ∧
      exportConstraintInformation (restartSearch mC9) 1 = Except.error RunError.checkFailed) :=
  ⟨rfl, rfl, restartSearch_clears_amended mC9 1 rfl rfl⟩

/-- The duration list of a record with matching start and end lists has
one entry per run. -/
theorem runtimesQ_length (dr : DemonRuns)
    (hlen : dr.start_time.length = dr.end_time.length) :
    (runtimesQ dr).length = dr.start_time.length := by
  simp only [runtimesQ, demonDurations, List.length_map, List.length_zip, hlen,
    Nat.min_self]

/-- Claim C6: for a record with at least one run, the median computed by
the export equals the specification median — sort the durations ascending,
take the middle element for an odd count and the average of the two middle
elements for an even count. -/
theorem exportDemonInformation_median_refines_spec (dr : DemonRuns) (s : DemonSummary)
    (hlen : dr.start_time.length = dr.end_time.length)
    (hpos : 0 < dr.start_time.length)
    (hs : exportDemonInformation dr = Except.ok s) :
    s.median_demon_runtime = medianSpec (runtimesQ dr) := by
  have hne : ¬ dr.start_time.length = 0 := Nat.pos_iff_ne_zero.mp hpos
  unfold exportDemonInformation at hs
  rw [if_neg (by omega), if_neg hne] at hs
  injection hs with hs
  subst hs
  show codeMedian dr = medianSpec (runtimesQ dr)
  unfold codeMedian medianSpec sortedRuntimes
  rw [runtimesQ_length dr hlen]
  by_cases h1 : dr.start_time.length = 1
  · rw [if_pos h1, h1]
    norm_num
  · rw [if_neg h1]

/-- Concrete record for the claim C6 witness: two runs with durations 5
and 15 microseconds. -/
def drC6 : DemonRuns := ⟨6, [0, 10], [5, 25], 0⟩

/-- Summary exported for `drC6`: two invocations, total runtime 20, mean
10, median 10 and variance 25. -/
def sC6 : DemonSummary := ⟨2, 0, 20, 10, 10, 25⟩

/-- Helper evaluation: the sorted runtimes of `drC6` are 5 and 15. -/
theorem sortedRuntimes_drC6 : sortedRuntimes drC6 = [5, 15] := by
  norm_num [sortedRuntimes, runtimesQ, demonDurations, drC6, List.insertionSort,
    List.orderedInsert]

/-- Helper evaluation: the export of the two-run record `drC6`. -/
theorem exportDemonInformation_drC6_eval :
    exportDemonInformation drC6 = Except.ok sC6 := by
  unfold exportDemonInformation
  rw [if_neg (by decide), if_neg (by decide)]
  unfold sC6 codeMean codeMedian codeVariance
  rw [sortedRuntimes_drC6]
  norm_num [demonDurations, drC6, codeMean]

/-- Witness for claim C6: the record with durations 5 and 15 exports the
specification median, which is 10. -/
theorem exportDemonInformation_median_refines_spec_witness :
    drC6.start_time.length = drC6.end_time.length ∧
    0 < drC6.start_time.length ∧
    exportDemonInformation drC6 = Except.ok sC6 ∧
    sC6.median_demon_runtime = medianSpec (runtimesQ drC6) ∧
    sC6.median_demon_runtime = 10 := by
  refine ⟨rfl, by decide, exportDemonInformation_drC6_eval, ?_, by rfl⟩
  exact exportDemonInformation_median_refines_spec drC6 sC6 rfl (by decide)
    exportDemonInformation_drC6_eval

